import Mathlib

/-!
Shallow embedding of the aimsim reservation/tiling scheduler sources
(`aimsim/roads/roads.py`, `aimsim/intersections/intersections.py`,
`aimsim/intersections/reservations.py`) and proofs about the behaviour the
specification describes.

Python floats are modelled as rationals, Python exceptions as an explicit
error type threaded through `Except`/`Option`, Python dicts as
insertion-ordered association lists, and object attributes that may be unset
as `Option`.  Collaborator components whose code is not part of the three
source files (lane objects, managers, the tiling) are either parameters of
the embedded functions or, where a claim is about them, modelled from the
specification; each such definition says so in its doc comment.
-/

deriving instance DecidableEq for Except

/-- Planar coordinate (`aimsim.util.Coord`), a pair of floats. -/
abbrev Coord : Type := ℚ × ℚ

/-- `aimsim.util.VehicleSection`: which third of a vehicle a transfer moves. -/
inductive VehicleSection : Type
  | front
  | mid
  | rear
deriving DecidableEq, Repr

/-- The fields of `aimsim.vehicles.Vehicle` that the three source files read:
an identity, the `has_reservation` flag and the
`permission_to_enter_intersection` flag. -/
structure Vehicle : Type where
  vin : Nat
  has_reservation : Bool
  permission_to_enter_intersection : Bool
deriving DecidableEq, Repr

/-- `aimsim.util.VehicleTransfer`: a vehicle reference, the section being
transferred (Python field `section`, renamed because `section` is a Lean
keyword) and the position (lane endpoint coordinate) of the transfer. -/
structure VehicleTransfer : Type where
  vehicle : Vehicle
  vsection : VehicleSection
  pos : Coord
deriving DecidableEq, Repr

/-- `aimsim.util.SpeedUpdate`: the (velocity, acceleration) tuple a lane
computes for a vehicle each tick. -/
structure SpeedUpdate : Type where
  velocity : ℚ
  acceleration : ℚ
deriving DecidableEq, Repr

/-- Python exceptions raised (or raisable) by the embedded code, one
constructor per `raise` site or builtin failure mode.  The string payloads of
the Python originals are dropped; the constructor name records the site:
* `valueErrorMustHaveMoreLanes` — `ValueError('Must have more than one lane.')`
* `valueErrorNeedLaneOffset` — `ValueError('Need lane_offset if ...')`
* `valueErrorLaneOffsetAngleRange` — `ValueError('lane_offset_angle must ...')`
* `valueErrorRoadNotLongEnough` — `ValueError('Road is not long enough ...')`
* `valueErrorNeedPositiveLaneWidth` — `ValueError('Need positive lane width.')`
* `valueErrorSumOfRegions` — `ValueError('Sum of regions longer than trajectory.')`
* `runtimeErrorNoPermissionToEnter` — `RuntimeError('Received a vehicle that
  does not have permission to enter the intersection.')`
* `notImplementedTodo` — `NotImplementedError('TODO')`
* `keyError` — builtin `KeyError` from a failed dict subscript
* `indexError` — builtin `IndexError` from a failed sequence subscript
* `attributeErrorNoUpstream` / `attributeErrorNoDownstream` — builtin
  `AttributeError` from reading a never-assigned instance attribute
* `nameErrorUnresolved` — builtin `NameError` from an unresolvable identifier
* `linkErrorNoUpstream` / `linkErrorNoDownstream` —
  `LinkError('No upstream object.')` / `LinkError('No downstream object.')` -/
inductive PyError : Type
  | valueErrorMustHaveMoreLanes
  | valueErrorNeedLaneOffset
  | valueErrorLaneOffsetAngleRange
  | valueErrorRoadNotLongEnough
  | valueErrorNeedPositiveLaneWidth
  | valueErrorSumOfRegions
  | runtimeErrorNoPermissionToEnter
  | notImplementedTodo
  | keyError
  | indexError
  | attributeErrorNoUpstream
  | attributeErrorNoDownstream
  | nameErrorUnresolved
  | linkErrorNoUpstream
  | linkErrorNoDownstream
deriving DecidableEq, Repr

/-- The spec calls a vehicle transferred into the intersection without
reservation or permission a *ProtocolViolation*; in the source it is the
`RuntimeError` raised at the end of `Intersection.process_transfers`. -/
def ProtocolViolation : PyError := PyError.runtimeErrorNoPermissionToEnter

/-- The spec calls invalid construction parameters a *ConfigurationError*; in
the source these are exactly the `ValueError`s raised by constructor
validation (`Road.__init__`). -/
def PyError.isConfigurationError : PyError → Bool
  | PyError.valueErrorMustHaveMoreLanes => true
  | PyError.valueErrorNeedLaneOffset => true
  | PyError.valueErrorLaneOffsetAngleRange => true
  | PyError.valueErrorRoadNotLongEnough => true
  | PyError.valueErrorNeedPositiveLaneWidth => true
  | PyError.valueErrorSumOfRegions => true
  | _ => false

/-- Whether a Python exception is a `NameError` (the only class caught by the
`except NameError` clauses in `Road.update_speeds`). `AttributeError` is not
a subclass of `NameError`. -/
def PyError.isNameError : PyError → Bool
  | PyError.nameErrorUnresolved => true
  | _ => false

/-- The slice of `aimsim.trajectories.Trajectory` the sources use: its length
and its endpoint coordinates. -/
structure Trajectory : Type where
  length : ℚ
  start_coord : Coord
  end_coord : Coord
deriving DecidableEq, Repr

/-- The `manager_type` argument of `Road.__init__`; the code only asks
whether it `is DummyManager`. -/
inductive LaneChangeManagerType : Type
  | DummyManager
  | OtherManager
deriving DecidableEq, Repr

/-- The slice of `aimsim.lanes.RoadLane` built by `Road.__init__`: each lane
shares the road trajectory plus a width and an offset. -/
structure RoadLane : Type where
  trajectory : Trajectory
  width : ℚ
  offset : Coord
deriving DecidableEq, Repr

/-- The arguments of `Road.__init__` that its embedded body reads.
`manager_spec`, `upstream_is_spawner` and `downstream_is_remover` are not
read by any embedded branch and are omitted. -/
structure RoadArgs : Type where
  trajectory : Trajectory
  manager_type : LaneChangeManagerType
  num_lanes : Int
  lane_width : ℚ
  lane_offset_angle : Option ℚ
  len_entrance_region : ℚ
  len_approach_region : ℚ
  v_max : Int
deriving DecidableEq, Repr

/-- The `Road` object state assembled by `Road.__init__`.  `upstream` and
`downstream` are instance attributes that `__init__` never assigns; they only
appear after `connect_upstream` / `connect_downstream` run, so they are
`Option` and start as `none` (reading a `none` attribute is Python's
`AttributeError`). -/
structure Road : Type where
  trajectory : Trajectory
  num_lanes : Int
  lane_width : ℚ
  lane_offset_angle : Option ℚ
  v_max : Int
  lanes : List RoadLane
  upstream : Option Unit
  downstream : Option Unit
deriving DecidableEq, Repr

/-- `Road.__init__` (roads.py lines 53-145): the five validation checks in
source order, then construction of the lane tuple.  Each `raise` becomes an
`Except.error`. -/
def Road.init (a : RoadArgs) : Except PyError Road :=
  if a.num_lanes < 1 then
    Except.error PyError.valueErrorMustHaveMoreLanes
  else if a.num_lanes > 1 ∧ a.lane_offset_angle = none then
    Except.error PyError.valueErrorNeedLaneOffset
  else if (a.lane_offset_angle.any fun θ => decide (θ < 0 ∨ θ ≥ 360)) then
    Except.error PyError.valueErrorLaneOffsetAngleRange
  else if (a.manager_type = LaneChangeManagerType.DummyManager ∧
             a.trajectory.length <
               max a.len_entrance_region a.len_approach_region) ∨
          a.trajectory.length <
            a.len_entrance_region + a.len_approach_region then
    Except.error PyError.valueErrorRoadNotLongEnough
  else if a.lane_width ≤ 0 then
    Except.error PyError.valueErrorNeedPositiveLaneWidth
  else if a.len_entrance_region + a.len_approach_region >
            a.trajectory.length then
    Except.error PyError.valueErrorSumOfRegions
  else
    Except.ok
      { trajectory := a.trajectory
        num_lanes := a.num_lanes
        lane_width := a.lane_width
        lane_offset_angle := a.lane_offset_angle
        v_max := a.v_max
        lanes := (List.range a.num_lanes.toNat).map fun _ =>
          { trajectory := a.trajectory
            width := a.lane_width
            offset := ((0 : ℚ), (0 : ℚ)) }
        upstream := none
        downstream := none }

/-- Reading `self.upstream` in Python: a never-assigned instance attribute
raises `AttributeError`. -/
def Road.getattrUpstream (r : Road) : Except PyError Unit :=
  match r.upstream with
  | some _ => Except.ok ()
  | none => Except.error PyError.attributeErrorNoUpstream

/-- Reading `self.downstream` in Python, as `Road.getattrUpstream`. -/
def Road.getattrDownstream (r : Road) : Except PyError Unit :=
  match r.downstream with
  | some _ => Except.ok ()
  | none => Except.error PyError.attributeErrorNoDownstream

/-- A Python `try: body / except NameError: raise handler` block: the handler
replaces the exception only when the body raised a `NameError`; every other
exception propagates unchanged. -/
def pyTryExceptNameError (body : Except PyError Unit) (handler : PyError) :
    Except PyError Unit :=
  match body with
  | Except.ok u => Except.ok u
  | Except.error e =>
      if e.isNameError then Except.error handler else Except.error e

/-- The connection check at the top of `Road.update_speeds` (roads.py lines
228-235): two `try ... except NameError: raise LinkError(...)` blocks around
the reads of `self.upstream` and `self.downstream`. -/
def Road.update_speeds_linkcheck (r : Road) : Except PyError Unit := do
  pyTryExceptNameError r.getattrUpstream PyError.linkErrorNoUpstream
  pyTryExceptNameError r.getattrDownstream PyError.linkErrorNoDownstream

/-! ### Python dict semantics

Python dicts preserve insertion order: assigning to an existing key keeps its
position, assigning to a fresh key appends.  They are modelled as association
lists with those two operations. -/

/-- `d[k]` as a total lookup: the pair with the key, if any. -/
def pyDictGet {α β : Type} [DecidableEq α] : List (α × β) → α → Option β
  | [], _ => none
  | p :: d, k => if p.1 = k then some p.2 else pyDictGet d k

/-- `d[k] = v`: overwrite in place if the key is present, append otherwise
(a dict never holds a key twice, so replacing the one occurrence is
Python's behaviour). -/
def pyDictSet {α β : Type} [DecidableEq α] :
    List (α × β) → α → β → List (α × β)
  | [], k, v => [(k, v)]
  | p :: d, k, v => if p.1 = k then (k, v) :: d else p :: pyDictSet d k v

/-! ### Speed update merging -/

/-- Python `<` on `SpeedUpdate` tuples: lexicographic on
(velocity, acceleration). -/
def SpeedUpdate.pylt (x y : SpeedUpdate) : Bool :=
  decide (x.velocity < y.velocity) ||
    (decide (x.velocity = y.velocity) &&
      decide (x.acceleration < y.acceleration))

/-- Python `min(x, y)` on `SpeedUpdate` tuples: `y` if `y < x`, else `x`. -/
def pymin (x y : SpeedUpdate) : SpeedUpdate :=
  if SpeedUpdate.pylt y x then y else x

/-- One iteration of the merge loop in `Road.update_speeds` (roads.py lines
251-263): `min`-combine with the existing entry, else insert. -/
def speedDictInsertMin :
    List (Vehicle × SpeedUpdate) → Vehicle → SpeedUpdate →
      List (Vehicle × SpeedUpdate)
  | [], v, u => [(v, u)]
  | p :: d, v, u =>
    if p.1 = v then (v, pymin p.2 u) :: d else p :: speedDictInsertMin d v u

/-- The merge of per-lane speed updates in `Road.update_speeds` (roads.py
lines 249-264): fold every lane's `(vehicle, update)` pairs, in lane order,
into one dict, taking the slower update for a vehicle present twice. -/
def Road.update_speeds_merge
    (new_speeds : List (List (Vehicle × SpeedUpdate))) :
    List (Vehicle × SpeedUpdate) :=
  new_speeds.foldl
    (fun acc d => d.foldl (fun acc2 p => speedDictInsertMin acc2 p.1 p.2) acc)
    []

/-- The merge of per-lane speed updates in `Intersection.update_speeds`
(intersections.py lines 167-175): `dict(update for lane_update in new_speeds
for update in lane_update.items())`, i.e. plain dict construction where a
later lane's entry for the same vehicle overwrites the earlier one. -/
def Intersection.update_speeds_merge
    (new_speeds : List (List (Vehicle × SpeedUpdate))) :
    List (Vehicle × SpeedUpdate) :=
  new_speeds.foldl
    (fun acc d => d.foldl (fun acc2 p => pyDictSet acc2 p.1 p.2) acc)
    []

/-- Reference combination of a sequence of updates for one vehicle under
`min`-merging: fold `pymin` over the updates, starting from an optional
already-merged value.  Used to state what the dict folds compute
per vehicle. -/
def pyminFoldOpt (o : Option SpeedUpdate) (l : List SpeedUpdate) :
    Option SpeedUpdate :=
  l.foldl (fun acc u => some (acc.elim u fun x => pymin x u)) o

/-- Reference combination of a sequence of updates for one vehicle under
overwrite-merging: the last update wins. -/
def lastFoldOpt (o : Option SpeedUpdate) (l : List SpeedUpdate) :
    Option SpeedUpdate :=
  l.foldl (fun _ u => some u) o

/-! ### Intersection: transfers and stepping -/

/-- The slice of `aimsim.lanes.IntersectionLane` the intersection code reads:
its endpoint coordinates (its identity). -/
structure IntersectionLane : Type where
  start_coord : Coord
  end_coord : Coord
deriving DecidableEq, Repr

/-- The collaborators `Intersection.process_transfers` calls into.  The
manager (`aimsim.intersections.managers`) and the vehicle movement oracle are
not among the three source files, so they are parameters:
`start_reservation` is modelled from the spec as returning the lane the
vehicle must enter (and, per spec, leaving the vehicle's `has_reservation`
flag untouched while the reservation is ACTIVE); `next_movement` models
`Vehicle.next_movement(pos)`, a list of candidate destination coordinates. -/
structure IntersectionEnv : Type where
  start_reservation : Vehicle → IntersectionLane
  lanes_by_endpoints : List ((Coord × Coord) × IntersectionLane)
  next_movement : Vehicle → Coord → List Coord

/-- The observable effects of one `Intersection.process_transfers` run:
which vehicles `manager.start_reservation` was invoked on (in call order),
which `(lane, transfer)` pairs reached `lane.enter_vehicle_section`, and the
exception that aborted the loop, if any. -/
structure TransferOutcome : Type where
  startCalls : List Vehicle
  entered : List (IntersectionLane × VehicleTransfer)
  err : Option PyError
deriving DecidableEq, Repr

/-- The body of the `while` loop of `Intersection.process_transfers`
(intersections.py lines 197-217) for a single popped transfer: resolve the
lane via `start_reservation` if `has_reservation`, else via the
`lanes_by_endpoints` dict keyed by `(transfer.pos, next_movement(pos)[0])` if
`permission_to_enter_intersection`, else raise the protocol-violation
`RuntimeError`.  Returns the start-calls made and the lane handed the
section. -/
def Intersection.processOneTransfer (env : IntersectionEnv)
    (t : VehicleTransfer) :
    Except PyError (List Vehicle × IntersectionLane) :=
  if t.vehicle.has_reservation then
    Except.ok ([t.vehicle], env.start_reservation t.vehicle)
  else if t.vehicle.permission_to_enter_intersection then
    match env.next_movement t.vehicle t.pos with
    | [] => Except.error PyError.indexError
    | dest :: _ =>
      match pyDictGet env.lanes_by_endpoints (t.pos, dest) with
      | none => Except.error PyError.keyError
      | some lane => Except.ok ([], lane)
  else
    Except.error ProtocolViolation

/-- The `while` loop of `Intersection.process_transfers`, processing
transfers in the given order; an exception aborts the loop with no further
effects. -/
def Intersection.processTransfersFrom (env : IntersectionEnv) :
    List VehicleTransfer → TransferOutcome
  | [] => { startCalls := [], entered := [], err := none }
  | t :: rest =>
    match Intersection.processOneTransfer env t with
    | Except.error e => { startCalls := [], entered := [], err := some e }
    | Except.ok (starts, lane) =>
      let o := Intersection.processTransfersFrom env rest
      { startCalls := starts ++ o.startCalls
        entered := (lane, t) :: o.entered
        err := o.err }

/-- `Intersection.process_transfers` (intersections.py lines 194-218):
`list.pop()` removes the **last** element, so the buffer is consumed in
reverse order. -/
def Intersection.process_transfers (env : IntersectionEnv)
    (entering_vehicle_buffer : List VehicleTransfer) : TransferOutcome :=
  Intersection.processTransfersFrom env entering_vehicle_buffer.reverse

/-- The observable effects of one `Intersection.step_vehicles` run: the
`(road, transfer)` pairs passed to `transfer_vehicle` (roads named by an
identifier), the vehicles passed to `manager.finish_exiting` (in call
order), and the exception that aborted the loop, if any. -/
structure StepOutcome : Type where
  forwards : List (Nat × VehicleTransfer)
  finishCalls : List Vehicle
  err : Option PyError
deriving DecidableEq, Repr

/-- The inner loop of `Intersection.step_vehicles` (intersections.py lines
186-192) over an already-flattened list of transfers: each transfer is
forwarded to `downstream_road_by_coord[transfer.pos]` (a `KeyError` aborts
the loop), then `finish_exiting(transfer.vehicle)` runs exactly when
`transfer.section is VehicleSection.REAR`. -/
def Intersection.stepVehiclesFrom
    (downstream_road_by_coord : List (Coord × Nat)) :
    List VehicleTransfer → StepOutcome
  | [] => { forwards := [], finishCalls := [], err := none }
  | t :: rest =>
    match pyDictGet downstream_road_by_coord t.pos with
    | none => { forwards := [], finishCalls := [], err := some PyError.keyError }
    | some rid =>
      let o := Intersection.stepVehiclesFrom downstream_road_by_coord rest
      { forwards := (rid, t) :: o.forwards
        finishCalls :=
          (if t.vsection = VehicleSection.rear then [t.vehicle] else [])
            ++ o.finishCalls
        err := o.err }

/-- `Intersection.step_vehicles` (intersections.py lines 177-192): lanes
yield their transfer lists in lane order; each transfer is forwarded and
rear sections trigger `finish_exiting`. -/
def Intersection.step_vehicles
    (downstream_road_by_coord : List (Coord × Nat))
    (lane_transfers : List (List VehicleTransfer)) : StepOutcome :=
  Intersection.stepVehiclesFrom downstream_road_by_coord
    lane_transfers.flatten

/-! ### Intersection construction -/

/-- The keys of `self.lanes_by_end` built by `Road.__init__`: the end
coordinate of each lane's trajectory. -/
def Road.lanes_by_end_coords (r : Road) : List Coord :=
  r.lanes.map fun l => l.trajectory.end_coord

/-- The keys of `self.lanes_by_start` built by `Road.__init__`: the start
coordinate of each lane's trajectory. -/
def Road.lanes_by_start_coords (r : Road) : List Coord :=
  r.lanes.map fun l => l.trajectory.start_coord

/-- A fully constructed `Intersection` object.  `Intersection.__init__` never
reaches the point where one exists, so no value of this type is ever
produced by the embedded constructor; the field mirrors the first attribute
the dead code after the `raise` would assign. -/
structure Intersection : Type where
  lanes : List IntersectionLane
deriving DecidableEq, Repr

/-- The coordinate indexing at the top of `Intersection.__init__`
(intersections.py lines 57-68): `(road_by_coord, upstream_road_by_coord,
downstream_road_by_coord)`. -/
def Intersection.initIndexes (upstream_roads downstream_roads : List Road) :
    List (Coord × Road) × List (Coord × Road) × List (Coord × Road) :=
  let afterUp : List (Coord × Road) × List (Coord × Road) :=
    upstream_roads.foldl
      (fun acc r => r.lanes_by_end_coords.foldl
        (fun acc2 c => (pyDictSet acc2.1 c r, pyDictSet acc2.2 c r)) acc)
      ([], [])
  let afterDown : List (Coord × Road) × List (Coord × Road) :=
    downstream_roads.foldl
      (fun acc r => r.lanes_by_start_coords.foldl
        (fun acc2 c => (pyDictSet acc2.1 c r, pyDictSet acc2.2 c r)) acc)
      (afterUp.1, [])
  (afterDown.1, afterUp.2, afterDown.2)

/-- `Intersection.__init__` (intersections.py lines 38-74): index the
upstream and downstream roads by coordinate, then unconditionally
`raise NotImplementedError("TODO")` before any lane or manager is created.
`connectivity`, the manager type and spec, and `v_max` are accepted but
never reached. -/
def Intersection.init (upstream_roads downstream_roads : List Road)
    (_connectivity : List (List ℚ)) (_manager_spec : List (Nat × ℚ))
    (_v_max : Int) : Except PyError Intersection :=
  let _idx := Intersection.initIndexes upstream_roads downstream_roads
  Except.error PyError.notImplementedTodo

/-- The processed spec dict consumed by `Intersection.from_spec`
(intersections.py lines 148-163), with the six keys it subscripts. -/
structure IntersectionSpec : Type where
  upstream_roads : List Road
  downstream_roads : List Road
  connectivity : List (List ℚ)
  manager_spec : List (Nat × ℚ)
  v_max : Int

/-- `Intersection.from_spec`: forwards the spec fields to the constructor. -/
def Intersection.from_spec (spec : IntersectionSpec) :
    Except PyError Intersection :=
  Intersection.init spec.upstream_roads spec.downstream_roads
    spec.connectivity spec.manager_spec spec.v_max

/-! ### Reservation and its `__hash__` -/

/-- `aimsim.lanes.ScheduledExit` as the reservation stores it: the scheduled
(time, speed) of the vehicle's exit from road into intersection. -/
structure ScheduledExit : Type where
  t : Nat
  velocity : ℚ
deriving DecidableEq, Repr

/-- The `Reservation` dataclass (reservations.py lines 13-58).  `tiles` maps
each timestep to the (tile id, proportion) pairs used then. -/
structure Reservation : Type where
  vehicle : Vehicle
  res_pos : Coord
  tiles : List (Nat × List (Nat × ℚ))
  lane : IntersectionLane
  dependent_on : List Vehicle
  dependency : Option Vehicle
  its_exit : ScheduledExit
deriving DecidableEq, Repr

/-- The Python identifiers relevant to resolving the body of
`Reservation.__hash__`: the method's sole parameter, the name the body
reads, and every name bound at module level in reservations.py (the
`__future__` import, the imported decorators/typing names, the imports from
`..util`, `..vehicles` and `..lanes`, and the class itself).  `Tile` is
imported only under `TYPE_CHECKING` and is therefore **not** bound at
runtime. -/
inductive PyIdent : Type
  | selfParam
  | vehicleName
  | futureImport
  | dataclassDecorator
  | typeCheckingFlag
  | dictTyping
  | setTyping
  | optionalTyping
  | listTyping
  | coordImport
  | vehicleTransferImport
  | vehicleClassImport
  | intersectionLaneImport
  | scheduledExitImport
  | reservationClass
deriving DecidableEq, Repr

/-- The names bound at module level in reservations.py at runtime. -/
def reservationsModuleGlobals : List PyIdent :=
  [PyIdent.futureImport, PyIdent.dataclassDecorator,
   PyIdent.typeCheckingFlag, PyIdent.dictTyping, PyIdent.setTyping,
   PyIdent.optionalTyping, PyIdent.listTyping, PyIdent.coordImport,
   PyIdent.vehicleTransferImport, PyIdent.vehicleClassImport,
   PyIdent.intersectionLaneImport, PyIdent.scheduledExitImport,
   PyIdent.reservationClass]

/-- The scope in which the body of `Reservation.__hash__` resolves names:
its local scope holds only the parameter `self`; the enclosing scope is the
module's globals.  (Python builtins bind no name spelled `vehicle`.) -/
def reservationHashScope : List PyIdent :=
  PyIdent.selfParam :: reservationsModuleGlobals

/-- The identifier the body `return hash(vehicle)` reads (reservations.py
line 61): the bare name `vehicle`, not the attribute `self.vehicle`. -/
def reservationHashReadsIdent : PyIdent := PyIdent.vehicleName

/-- Python's `hash` of a `Vehicle` object: object identity, modelled by the
vehicle's identifying number. -/
def vehicleHash (v : Vehicle) : Nat := v.vin

/-- `Reservation.__hash__` (reservations.py lines 60-61): resolve the bare
name `vehicle` in the method's scope and hash the result.  The `some` branch
is unreachable, because no scope binds `vehicle`; it is given the value the
spec's contract intends (hash of the owning vehicle) purely to make the
function total. -/
def Reservation.pyhash (r : Reservation) : Except PyError Nat :=
  if reservationHashScope.contains reservationHashReadsIdent then
    Except.ok (vehicleHash r.vehicle)
  else
    Except.error PyError.nameErrorUnresolved

/-! ### Tiling, modelled from the spec

The tiling (`aimsim/intersections/tilings.py`) is not among the source
files; only this repository's callers and the spec describe it.  The
definitions below are modelled from spec sections 3 and 4.1. -/

/-- Modelled from the spec: one (tile, timestep, proportion) entry of a
reservation's space-time claim; `tilings.py` is not among the source files.
Spec section 3: a claiming reservation uses a tile at a timestep "with a
usage proportion in (0,1]". -/
structure TileClaim : Type where
  tile : Nat
  timestep : Nat
  proportion : ℚ
deriving DecidableEq, Repr

/-- Modelled from the spec: the slice of a reservation the tiling reads —
its identity and its timestep→(tile, proportion) entries, flattened. -/
structure TilingReservation : Type where
  rid : Nat
  claims : List TileClaim
deriving DecidableEq, Repr

/-- Modelled from the spec: the tiling's committed-reservation state
(spec section 4.1: `commit` "marks every (tile, timestep, proportion) entry
from a tested reservation as used"). -/
structure Tiling : Type where
  committed : List TilingReservation
deriving DecidableEq, Repr

/-- The proportion a single reservation claims at one (tile, timestep)
pair. -/
def TilingReservation.usageAt (r : TilingReservation) (tile ts : Nat) : ℚ :=
  (r.claims.map fun c =>
    if c.tile = tile ∧ c.timestep = ts then c.proportion else 0).sum

/-- The total proportion claimed at one (tile, timestep) pair across all
committed reservations. -/
def Tiling.usageAt (s : Tiling) (tile ts : Nat) : ℚ :=
  (s.committed.map fun r => r.usageAt tile ts).sum

/-- Modelled from the spec: every proportion of a reservation lies in
(0,1] (spec section 3). -/
def TilingReservation.wf (r : TilingReservation) : Bool :=
  r.claims.all fun c => decide (0 < c.proportion ∧ c.proportion ≤ 1)

/-- Modelled from the spec: the feasibility test (spec section 4.1) —
"checks that the proportion sum at each (tile, timestep) — including
speculative usage — would not exceed 1.0", the candidate's own usage at the
pair included. -/
def Tiling.test (s : Tiling) (r : TilingReservation) : Bool :=
  r.claims.all fun c =>
    decide (s.usageAt c.tile c.timestep + r.usageAt c.tile c.timestep ≤ 1)

/-- Modelled from the spec: `commit(reservation)` marks every entry of a
tested reservation as used. -/
def Tiling.commit (s : Tiling) (r : TilingReservation) : Tiling :=
  { committed := r :: s.committed }

/-- Modelled from the spec: `release_past(current_time)` discards tiles for
timesteps strictly before `current_time`. -/
def Tiling.release_past (s : Tiling) (current_time : Nat) : Tiling :=
  { committed := s.committed.map fun r =>
      { rid := r.rid
        claims := r.claims.filter fun c => decide (current_time ≤ c.timestep) } }

/-- Modelled from the spec: retirement — a completed reservation is removed
from the committed set (spec section 3: "Destroyed (retired) when the
vehicle's rear section is confirmed to have exited"). -/
def Tiling.retire (s : Tiling) (rid : Nat) : Tiling :=
  { committed := s.committed.filter fun r => decide (r.rid ≠ rid) }

/-- The tiling states reachable through the spec's operation protocol:
start empty; commit only a well-formed reservation that passed `test`
(spec section 4.2: the manager commits on test success); `release_past` and
retirement may run at any time.  `test` itself does not change the state. -/
inductive Tiling.Reachable : Tiling → Prop
  | init : Tiling.Reachable { committed := [] }
  | commit (s : Tiling) (r : TilingReservation) :
      Tiling.Reachable s → r.wf = true → s.test r = true →
      Tiling.Reachable (s.commit r)
  | release_past (s : Tiling) (current_time : Nat) :
      Tiling.Reachable s → Tiling.Reachable (s.release_past current_time)
  | retire (s : Tiling) (rid : Nat) :
      Tiling.Reachable s → Tiling.Reachable (s.retire rid)

/-- The exclusivity invariant of spec sections 3 and 8: at every
(tile, timestep) pair the committed proportions sum to at most 1. -/
def Tiling.Exclusive (s : Tiling) : Prop :=
  ∀ tile ts : Nat, s.usageAt tile ts ≤ 1

/-- Auxiliary invariant: every committed proportion is positive. -/
def Tiling.PositiveProportions (s : Tiling) : Prop :=
  ∀ r ∈ s.committed, ∀ c ∈ r.claims, 0 < c.proportion

/-! ### Concrete instances used to exercise the definitions -/

/-- A straight 200 m trajectory. -/
def trajW : Trajectory :=
  { length := 200, start_coord := ((0 : ℚ), (0 : ℚ)),
    end_coord := ((200 : ℚ), (0 : ℚ)) }

/-- Valid `Road.__init__` arguments: one lane, regions 50 m + 100 m on a
200 m trajectory. -/
def roadArgsOk : RoadArgs :=
  { trajectory := trajW
    manager_type := LaneChangeManagerType.DummyManager
    num_lanes := 1
    lane_width := 4
    lane_offset_angle := none
    len_entrance_region := 50
    len_approach_region := 100
    v_max := 30 }

/-- The road `Road.init roadArgsOk` constructs: both connection attributes
still unset. -/
def roadUnconnected : Road :=
  { trajectory := trajW
    num_lanes := 1
    lane_width := 4
    lane_offset_angle := none
    v_max := 30
    lanes := [{ trajectory := trajW, width := 4,
                offset := ((0 : ℚ), (0 : ℚ)) }]
    upstream := none
    downstream := none }

/-- `Road.__init__` arguments whose positive region lengths sum to 110 m on a
100 m trajectory. -/
def roadArgsOverflow : RoadArgs :=
  { trajectory := { length := 100, start_coord := ((0 : ℚ), (0 : ℚ)),
                    end_coord := ((100 : ℚ), (0 : ℚ)) }
    manager_type := LaneChangeManagerType.OtherManager
    num_lanes := 1
    lane_width := 4
    lane_offset_angle := none
    len_entrance_region := 60
    len_approach_region := 50
    v_max := 30 }

/-- An intersection lane from (0,0) to (1,0). -/
def laneW : IntersectionLane :=
  { start_coord := ((0 : ℚ), (0 : ℚ)), end_coord := ((1 : ℚ), (0 : ℚ)) }

/-- A concrete collaborator environment: the manager sends every started
vehicle to `laneW`, `laneW` is the lane from (0,0) to (1,0), and every
vehicle's next movement from any position heads to (1,0). -/
def envW : IntersectionEnv :=
  { start_reservation := fun _ => laneW
    lanes_by_endpoints :=
      [((((0 : ℚ), (0 : ℚ)), ((1 : ℚ), (0 : ℚ))), laneW)]
    next_movement := fun _ _ => [((1 : ℚ), (0 : ℚ))] }

/-- A vehicle with neither a reservation nor permission to enter. -/
def vNoPermW : Vehicle :=
  { vin := 0, has_reservation := false,
    permission_to_enter_intersection := false }

/-- A vehicle holding a confirmed reservation (`has_reservation`). -/
def vReservedW : Vehicle :=
  { vin := 1, has_reservation := true,
    permission_to_enter_intersection := false }

/-- The front-section transfer of `vNoPermW` at (0,0). -/
def tNoPermW : VehicleTransfer :=
  { vehicle := vNoPermW, vsection := VehicleSection.front,
    pos := ((0 : ℚ), (0 : ℚ)) }

/-- The front-section transfer of `vReservedW` at (0,0). -/
def tFrontResW : VehicleTransfer :=
  { vehicle := vReservedW, vsection := VehicleSection.front,
    pos := ((0 : ℚ), (0 : ℚ)) }

/-- The mid-section transfer of `vReservedW` at (0,0). -/
def tMidResW : VehicleTransfer :=
  { vehicle := vReservedW, vsection := VehicleSection.mid,
    pos := ((0 : ℚ), (0 : ℚ)) }

/-- The rear-section transfer of `vReservedW` at (0,0). -/
def tRearResW : VehicleTransfer :=
  { vehicle := vReservedW, vsection := VehicleSection.rear,
    pos := ((0 : ℚ), (0 : ℚ)) }

/-- A downstream-road index holding road number 3 at coordinate (0,0). -/
def roadsByCoordW : List (Coord × Nat) := [(((0 : ℚ), (0 : ℚ)), 3)]

/-- A vehicle mid lane-change, present in two lanes at once. -/
def vLaneChangeW : Vehicle :=
  { vin := 7, has_reservation := false,
    permission_to_enter_intersection := false }

/-- The slower of two speed updates for `vLaneChangeW`. -/
def uSlowW : SpeedUpdate := { velocity := 1, acceleration := 1 }

/-- The faster of two speed updates for `vLaneChangeW`. -/
def uFastW : SpeedUpdate := { velocity := 2, acceleration := 2 }

/-- A tiling reservation claiming tile 5 fully at timestep 3. -/
def tilingResW : TilingReservation :=
  { rid := 1, claims := [{ tile := 5, timestep := 3, proportion := 1 }] }

/-- The tiling state after committing `tilingResW` into the empty tiling. -/
def tilingStateW : Tiling := Tiling.commit { committed := [] } tilingResW

/-! ## Helper lemmas -/

lemma SpeedUpdate.eq_of_not_pylt (x y : SpeedUpdate)
    (hxy : SpeedUpdate.pylt x y = false) (hyx : SpeedUpdate.pylt y x = false) :
    x = y := by
  unfold SpeedUpdate.pylt at hxy hyx
  simp only [Bool.or_eq_false_iff, Bool.and_eq_false_iff,
    decide_eq_false_iff_not, not_lt] at hxy hyx
  obtain ⟨hv1, hrest1⟩ := hxy
  obtain ⟨hv2, hrest2⟩ := hyx
  have hv : x.velocity = y.velocity := le_antisymm hv2 hv1
  have ha : x.acceleration = y.acceleration := by
    rcases hrest1 with h | h
    · exact absurd hv (by simpa using h)
    · rcases hrest2 with h' | h'
      · exact absurd hv.symm (by simpa using h')
      · exact le_antisymm (by simpa using h') (by simpa using h)
  cases x; cases y
  simp_all

lemma SpeedUpdate.pylt_asymm (x y : SpeedUpdate)
    (hxy : SpeedUpdate.pylt x y = true) (hyx : SpeedUpdate.pylt y x = true) :
    False := by
  unfold SpeedUpdate.pylt at hxy hyx
  simp only [Bool.or_eq_true, Bool.and_eq_true, decide_eq_true_eq] at hxy hyx
  rcases hxy with h1 | ⟨he1, ha1⟩ <;> rcases hyx with h2 | ⟨he2, ha2⟩
  · exact absurd h2 (not_lt.mpr (le_of_lt h1))
  · exact absurd he2 (ne_of_gt h1)
  · exact absurd he1.symm (ne_of_lt h2)
  · exact absurd ha2 (not_lt.mpr (le_of_lt ha1))

lemma pymin_comm (x y : SpeedUpdate) : pymin x y = pymin y x := by
  unfold pymin
  cases hyx : SpeedUpdate.pylt y x <;> cases hxy : SpeedUpdate.pylt x y
  · simpa using SpeedUpdate.eq_of_not_pylt x y hxy hyx
  · simp
  · simp
  · exact (SpeedUpdate.pylt_asymm x y hxy hyx).elim

lemma pyminFoldOpt_cons (o : Option SpeedUpdate) (x : SpeedUpdate)
    (l : List SpeedUpdate) :
    pyminFoldOpt o (x :: l) =
      pyminFoldOpt (some (o.elim x fun a => pymin a x)) l := rfl

lemma lastFoldOpt_cons (o : Option SpeedUpdate) (x : SpeedUpdate)
    (l : List SpeedUpdate) :
    lastFoldOpt o (x :: l) = lastFoldOpt (some x) l := rfl

lemma pyDictGet_insertMin_self (d : List (Vehicle × SpeedUpdate))
    (v : Vehicle) (u : SpeedUpdate) :
    pyDictGet (speedDictInsertMin d v u) v =
      some ((pyDictGet d v).elim u fun o => pymin o u) := by
  induction d with
  | nil => simp [speedDictInsertMin, pyDictGet]
  | cons p d ih =>
    by_cases hp : p.1 = v
    · simp [speedDictInsertMin, pyDictGet, hp]
    · simp [speedDictInsertMin, pyDictGet, hp, ih]

lemma pyDictGet_insertMin_ne (d : List (Vehicle × SpeedUpdate))
    (v k : Vehicle) (u : SpeedUpdate) (hk : k ≠ v) :
    pyDictGet (speedDictInsertMin d v u) k = pyDictGet d k := by
  induction d with
  | nil => simp [speedDictInsertMin, pyDictGet, Ne.symm hk]
  | cons p d ih =>
    by_cases hp : p.1 = v
    · subst hp
      simp [speedDictInsertMin, pyDictGet, Ne.symm hk]
    · simp [speedDictInsertMin, pyDictGet, hp, ih]

lemma pyDictGet_foldInsertMin (items : List (Vehicle × SpeedUpdate)) :
    ∀ (acc : List (Vehicle × SpeedUpdate)) (v : Vehicle),
      pyDictGet
          (items.foldl (fun a p => speedDictInsertMin a p.1 p.2) acc) v =
        pyminFoldOpt (pyDictGet acc v)
          ((items.filter fun p => decide (p.1 = v)).map Prod.snd) := by
  induction items with
  | nil => intro acc v; rfl
  | cons p items ih =>
    intro acc v
    rw [List.foldl_cons, List.filter_cons]
    by_cases hp : p.1 = v
    · subst hp
      rw [if_pos (by simp), List.map_cons, pyminFoldOpt_cons, ih]
      congr 1
      rw [pyDictGet_insertMin_self]
    · rw [if_neg (by simp [hp]), ih]
      congr 1
      exact pyDictGet_insertMin_ne acc p.1 v p.2 (Ne.symm hp)

lemma pyDictGet_set_self (d : List (Vehicle × SpeedUpdate)) (k : Vehicle)
    (v : SpeedUpdate) : pyDictGet (pyDictSet d k v) k = some v := by
  induction d with
  | nil => simp [pyDictSet, pyDictGet]
  | cons p d ih =>
    by_cases hp : p.1 = k
    · simp [pyDictSet, pyDictGet, hp]
    · simp [pyDictSet, pyDictGet, hp, ih]

lemma pyDictGet_set_ne (d : List (Vehicle × SpeedUpdate)) (k k' : Vehicle)
    (v : SpeedUpdate) (hk : k' ≠ k) :
    pyDictGet (pyDictSet d k v) k' = pyDictGet d k' := by
  induction d with
  | nil => simp [pyDictSet, pyDictGet, Ne.symm hk]
  | cons p d ih =>
    by_cases hp : p.1 = k
    · subst hp
      simp [pyDictSet, pyDictGet, Ne.symm hk]
    · simp [pyDictSet, pyDictGet, hp, ih]

lemma pyDictGet_foldSet (items : List (Vehicle × SpeedUpdate)) :
    ∀ (acc : List (Vehicle × SpeedUpdate)) (v : Vehicle),
      pyDictGet (items.foldl (fun a p => pyDictSet a p.1 p.2) acc) v =
        lastFoldOpt (pyDictGet acc v)
          ((items.filter fun p => decide (p.1 = v)).map Prod.snd) := by
  induction items with
  | nil => intro acc v; rfl
  | cons p items ih =>
    intro acc v
    rw [List.foldl_cons, List.filter_cons]
    by_cases hp : p.1 = v
    · subst hp
      rw [if_pos (by simp), List.map_cons, lastFoldOpt_cons, ih]
      congr 1
      exact pyDictGet_set_self acc p.1 p.2
    · rw [if_neg (by simp [hp]), ih]
      congr 1
      exact pyDictGet_set_ne acc p.1 v p.2 (Ne.symm hp)

lemma filter_key_eq_of_nodup :
    ∀ (d : List (Vehicle × SpeedUpdate)) (v : Vehicle) (u : SpeedUpdate),
      (d.map Prod.fst).Nodup → pyDictGet d v = some u →
      (d.filter fun p => decide (p.1 = v)).map Prod.snd = [u] := by
  intro d
  induction d with
  | nil => intro v u _ hg; simp [pyDictGet] at hg
  | cons p d ih =>
    intro v u hnd hg
    rw [List.map_cons, List.nodup_cons] at hnd
    rw [List.filter_cons]
    by_cases hp : p.1 = v
    · subst hp
      rw [pyDictGet, if_pos rfl] at hg
      injection hg with hg
      subst hg
      rw [if_pos (by simp), List.map_cons]
      have hnone : d.filter (fun p2 => decide (p2.1 = p.1)) = [] := by
        rw [List.filter_eq_nil_iff]
        intro q hq hq2
        exact hnd.1 (List.mem_map.mpr ⟨q, hq, (by simpa using hq2)⟩)
      rw [hnone]
      rfl
    · rw [pyDictGet, if_neg hp] at hg
      rw [if_neg (by simp [hp])]
      exact ih v u hnd.2 hg

lemma processTransfersFrom_entered_ok (env : IntersectionEnv) :
    ∀ (ts : List VehicleTransfer) (lane : IntersectionLane)
      (t : VehicleTransfer),
      (lane, t) ∈ (Intersection.processTransfersFrom env ts).entered →
      ∃ s l, Intersection.processOneTransfer env t = Except.ok (s, l) := by
  intro ts
  induction ts with
  | nil =>
    intro lane t h
    simp [Intersection.processTransfersFrom] at h
  | cons t' rest ih =>
    intro lane t h
    unfold Intersection.processTransfersFrom at h
    cases h' : Intersection.processOneTransfer env t' with
    | error e => rw [h'] at h; simp at h
    | ok p =>
      rw [h'] at h
      simp at h
      rcases h with ⟨hl, ht⟩ | h2
      · subst ht
        exact ⟨p.1, p.2, by rw [h']⟩
      · exact ih lane t h2

lemma processTransfersFrom_startCalls (env : IntersectionEnv) :
    ∀ ts : List VehicleTransfer,
      (Intersection.processTransfersFrom env ts).err = none →
      (Intersection.processTransfersFrom env ts).startCalls =
        (ts.filter fun t => t.vehicle.has_reservation).map
          fun t => t.vehicle := by
  intro ts
  induction ts with
  | nil => intro _; rfl
  | cons t rest ih =>
    intro herr
    unfold Intersection.processTransfersFrom at herr ⊢
    cases h' : Intersection.processOneTransfer env t with
    | error e => rw [h'] at herr; simp at herr
    | ok p =>
      obtain ⟨starts, lane⟩ := p
      rw [h'] at herr
      dsimp only at herr ⊢
      have hstart : starts =
          if t.vehicle.has_reservation then [t.vehicle] else [] := by
        unfold Intersection.processOneTransfer at h'
        by_cases hr : t.vehicle.has_reservation
        · rw [if_pos hr] at h'
          injection h' with h''
          injection h'' with h1 h2
          rw [← h1, if_pos hr]
        · rw [if_neg (by simpa using hr)] at h'
          by_cases hp2 : t.vehicle.permission_to_enter_intersection
          · rw [if_pos hp2] at h'
            cases hnm : env.next_movement t.vehicle t.pos with
            | nil => rw [hnm] at h'; exact absurd h' (by simp)
            | cons dest restm =>
              rw [hnm] at h'
              dsimp only at h'
              cases hlk : pyDictGet env.lanes_by_endpoints (t.pos, dest) with
              | none => rw [hlk] at h'; exact absurd h' (by simp)
              | some lane2 =>
                rw [hlk] at h'
                injection h' with h''
                injection h'' with h1 h2
                rw [← h1, if_neg (by simpa using hr)]
          · rw [if_neg (by simpa using hp2)] at h'
            exact absurd h' (by simp)
      rw [List.filter_cons, hstart]
      by_cases hr : t.vehicle.has_reservation
      · simp [hr, ih herr]
      · simp [hr, ih herr]

lemma stepVehiclesFrom_spec (roads : List (Coord × Nat)) :
    ∀ ts : List VehicleTransfer,
      (∀ t ∈ ts, (pyDictGet roads t.pos).isSome = true) →
      (Intersection.stepVehiclesFrom roads ts).err = none ∧
      (Intersection.stepVehiclesFrom roads ts).finishCalls =
        (ts.filter fun t => decide (t.vsection = VehicleSection.rear)).map
          (fun t => t.vehicle) ∧
      (Intersection.stepVehiclesFrom roads ts).forwards.map Prod.snd = ts ∧
      ∀ p ∈ (Intersection.stepVehiclesFrom roads ts).forwards,
        pyDictGet roads p.2.pos = some p.1 := by
  intro ts
  induction ts with
  | nil =>
    intro _
    refine ⟨rfl, rfl, rfl, ?_⟩
    intro p hp
    simp [Intersection.stepVehiclesFrom] at hp
  | cons t rest ih =>
    intro hall
    have ht := hall t (List.mem_cons_self t rest)
    obtain ⟨rid, hrid⟩ := Option.isSome_iff_exists.mp ht
    obtain ⟨ih1, ih2, ih3, ih4⟩ :=
      ih fun t' ht' => hall t' (List.mem_cons_of_mem t ht')
    unfold Intersection.stepVehiclesFrom
    rw [hrid]
    refine ⟨ih1, ?_, ?_, ?_⟩
    · rw [List.filter_cons]
      by_cases hs : t.vsection = VehicleSection.rear
      · simp [hs, ih2]
      · simp [hs, ih2]
    · simp [ih3]
    · intro p hp
      simp at hp
      rcases hp with rfl | hp
      · simpa using hrid
      · exact ih4 p hp

lemma TilingReservation.usageAt_nonneg (r : TilingReservation)
    (h : ∀ c ∈ r.claims, 0 < c.proportion) (tile ts : Nat) :
    0 ≤ r.usageAt tile ts := by
  unfold TilingReservation.usageAt
  apply List.sum_nonneg
  intro x hx
  rw [List.mem_map] at hx
  obtain ⟨c, hc, rfl⟩ := hx
  by_cases hcond : c.tile = tile ∧ c.timestep = ts
  · rw [if_pos hcond]; exact le_of_lt (h c hc)
  · rw [if_neg hcond]

lemma Tiling.usageAt_commit (s : Tiling) (r : TilingReservation)
    (tile ts : Nat) :
    (s.commit r).usageAt tile ts = r.usageAt tile ts + s.usageAt tile ts := by
  unfold Tiling.commit Tiling.usageAt
  rw [List.map_cons, List.sum_cons]

lemma TilingReservation.usageAt_filter_le (r : TilingReservation)
    (h : ∀ c ∈ r.claims, 0 < c.proportion) (q : TileClaim → Bool)
    (tile ts : Nat) :
    TilingReservation.usageAt { rid := r.rid, claims := r.claims.filter q }
        tile ts ≤ r.usageAt tile ts := by
  unfold TilingReservation.usageAt
  refine List.Sublist.sum_le_sum ((List.filter_sublist _).map _) ?_
  intro x hx
  rw [List.mem_map] at hx
  obtain ⟨c, hc, rfl⟩ := hx
  by_cases hcond : c.tile = tile ∧ c.timestep = ts
  · rw [if_pos hcond]; exact le_of_lt (h c hc)
  · rw [if_neg hcond]

lemma tiling_reachable_inv (s : Tiling) (h : Tiling.Reachable s) :
    Tiling.PositiveProportions s ∧ Tiling.Exclusive s := by
  induction h with
  | init =>
    constructor
    · intro r hr; simp at hr
    · intro tile ts
      show (List.map _ ([] : List TilingReservation)).sum ≤ 1
      norm_num
  | commit s r hs hwf ht ih =>
    obtain ⟨ihp, ihx⟩ := ih
    have hpos : ∀ c ∈ r.claims, 0 < c.proportion := by
      intro c hc
      have := (List.all_eq_true.mp hwf) c hc
      simp only [decide_eq_true_eq] at this
      exact this.1
    constructor
    · intro r' hr' c hc
      rcases List.mem_cons.mp hr' with rfl | hmem
      · exact hpos c hc
      · exact ihp r' hmem c hc
    · intro tile ts
      rw [Tiling.usageAt_commit]
      by_cases hex : ∃ c ∈ r.claims, c.tile = tile ∧ c.timestep = ts
      · obtain ⟨c, hc, hct, hcts⟩ := hex
        have hle := (List.all_eq_true.mp ht) c hc
        simp only [decide_eq_true_eq] at hle
        rw [hct, hcts] at hle
        linarith [ihx tile ts]
      · have hzero : r.usageAt tile ts = 0 := by
          unfold TilingReservation.usageAt
          apply List.sum_eq_zero
          intro x hx
          rw [List.mem_map] at hx
          obtain ⟨c, hc, rfl⟩ := hx
          rw [if_neg]
          intro hcond
          exact hex ⟨c, hc, hcond.1, hcond.2⟩
        rw [hzero, zero_add]
        exact ihx tile ts
  | release_past s cur hs ih =>
    obtain ⟨ihp, ihx⟩ := ih
    constructor
    · intro r' hr' c hc
      simp only [Tiling.release_past, List.mem_map] at hr'
      obtain ⟨r0, hr0, rfl⟩ := hr'
      exact ihp r0 hr0 c (List.mem_of_mem_filter hc)
    · intro tile ts
      show (List.map _ (List.map _ s.committed)).sum ≤ 1
      rw [List.map_map]
      refine le_trans (List.sum_le_sum ?_) (ihx tile ts)
      intro r0 hr0
      exact TilingReservation.usageAt_filter_le r0 (ihp r0 hr0) _ tile ts
  | retire s rid hs ih =>
    obtain ⟨ihp, ihx⟩ := ih
    constructor
    · intro r' hr' c hc
      exact ihp r' (List.mem_of_mem_filter hr') c hc
    · intro tile ts
      refine le_trans
        (List.Sublist.sum_le_sum ((List.filter_sublist _).map _) ?_)
        (ihx tile ts)
      intro x hx
      rw [List.mem_map] at hx
      obtain ⟨r0, hr0, rfl⟩ := hx
      exact TilingReservation.usageAt_nonneg r0 (ihp r0 hr0) tile ts

lemma tilingResW_test_empty :
    Tiling.test { committed := [] } tilingResW = true := by
  unfold Tiling.test tilingResW Tiling.usageAt TilingReservation.usageAt
  norm_num

lemma roadArgsOverflow_sum :
    roadArgsOverflow.trajectory.length <
      roadArgsOverflow.len_entrance_region +
        roadArgsOverflow.len_approach_region := by
  norm_num [roadArgsOverflow]

/-! ## Claims -/

/-- C1: every transfer popped by `Intersection.process_transfers` whose
vehicle has neither `has_reservation` nor
`permission_to_enter_intersection` makes the loop raise the fatal
protocol-violation error (the `RuntimeError` of intersections.py line 215),
and such a transfer is never handed to a lane by any `process_transfers`
run, whatever the buffer. -/
theorem missing_permission_raises_protocol_violation
    (env : IntersectionEnv) (t : VehicleTransfer)
    (hres : t.vehicle.has_reservation = false)
    (hperm : t.vehicle.permission_to_enter_intersection = false) :
    Intersection.processOneTransfer env t = Except.error ProtocolViolation ∧
    ∀ (buffer : List VehicleTransfer) (lane : IntersectionLane),
      (lane, t) ∉ (Intersection.process_transfers env buffer).entered := by
  have hone : Intersection.processOneTransfer env t
      = Except.error ProtocolViolation := by
    unfold Intersection.processOneTransfer
    rw [hres, hperm]
    simp
  refine ⟨hone, ?_⟩
  intro buffer lane hmem
  unfold Intersection.process_transfers at hmem
  obtain ⟨s, l, hok⟩ :=
    processTransfersFrom_entered_ok env buffer.reverse lane t hmem
  rw [hone] at hok
  exact Except.noConfusion hok

/-- Witness for C1 at the concrete environment `envW` and the
permission-less transfer `tNoPermW`. -/
theorem missing_permission_witness :
    tNoPermW.vehicle.has_reservation = false ∧
    tNoPermW.vehicle.permission_to_enter_intersection = false ∧
    Intersection.processOneTransfer envW tNoPermW
      = Except.error ProtocolViolation ∧
    (laneW, tNoPermW) ∉
      (Intersection.process_transfers envW [tNoPermW]).entered :=
  ⟨rfl, rfl,
    (missing_permission_raises_protocol_violation envW tNoPermW rfl rfl).1,
    (missing_permission_raises_protocol_violation envW tNoPermW rfl rfl).2
      [tNoPermW] laneW⟩

/-- C2: in every tiling state reachable through the spec protocol the
committed proportions at each (tile, timestep) pair sum to at most 1, and
each operation preserves the invariant: `test` leaves the state unchanged
by construction, committing a well-formed reservation that passed `test`
preserves it, and `release_past` and retirement preserve it
unconditionally.  (Tiling modelled from the spec; `tilings.py` is not among
the source files.) -/
theorem tiling_exclusivity :
    (∀ s : Tiling, Tiling.Reachable s → Tiling.Exclusive s) ∧
    (∀ (s : Tiling) (r : TilingReservation), Tiling.Reachable s →
      r.wf = true → s.test r = true → Tiling.Exclusive (s.commit r)) ∧
    (∀ (s : Tiling) (current_time : Nat), Tiling.Reachable s →
      Tiling.Exclusive (s.release_past current_time)) ∧
    (∀ (s : Tiling) (rid : Nat), Tiling.Reachable s →
      Tiling.Exclusive (s.retire rid)) := by
  have hmain : ∀ s : Tiling, Tiling.Reachable s → Tiling.Exclusive s :=
    fun s h => (tiling_reachable_inv s h).2
  refine ⟨hmain, ?_, ?_, ?_⟩
  · intro s r hs hwf ht
    exact hmain _ (Tiling.Reachable.commit s r hs hwf ht)
  · intro s cur hs
    exact hmain _ (Tiling.Reachable.release_past s cur hs)
  · intro s rid hs
    exact hmain _ (Tiling.Reachable.retire s rid hs)

/-- Witness for C2: the state `tilingStateW` (one full-tile reservation
committed after a passing test) is reachable and exclusive. -/
theorem tiling_exclusivity_witness :
    tilingResW.wf = true ∧
    Tiling.test { committed := [] } tilingResW = true ∧
    Tiling.Reachable tilingStateW ∧ Tiling.Exclusive tilingStateW :=
  have hreach : Tiling.Reachable tilingStateW :=
    Tiling.Reachable.commit { committed := [] } tilingResW
      Tiling.Reachable.init (by decide) tilingResW_test_empty
  ⟨by decide, tilingResW_test_empty, hreach,
    tiling_exclusivity.1 tilingStateW hreach⟩

/-- C3 counterexample: `Intersection.update_speeds` does not merge
conservatively.  With the slower update in the first lane and the faster in
the second, the merged dict holds the faster (last-written) update, which
differs from the `min`, and swapping the lane order changes the result. -/
theorem intersection_update_speeds_overwrites_counterexample :
    pyDictGet (Intersection.update_speeds_merge
        [[(vLaneChangeW, uSlowW)], [(vLaneChangeW, uFastW)]]) vLaneChangeW
      = some uFastW ∧
    uFastW ≠ pymin uSlowW uFastW ∧
    Intersection.update_speeds_merge
        [[(vLaneChangeW, uSlowW)], [(vLaneChangeW, uFastW)]]
      ≠ Intersection.update_speeds_merge
        [[(vLaneChangeW, uFastW)], [(vLaneChangeW, uSlowW)]] :=
  ⟨by decide, by decide, by decide⟩

/-- C3 amended: the conservative, order-independent merge is performed by
`Road.update_speeds` (roads.py lines 249-264): a vehicle present in two
lanes takes the Python `min` of the two updates, the same value for either
lane order; `Intersection.update_speeds` (intersections.py lines 167-175)
instead keeps the last-iterated lane's update. -/
theorem road_update_speeds_merge_takes_min
    (d1 d2 : List (Vehicle × SpeedUpdate)) (v : Vehicle)
    (u1 u2 : SpeedUpdate)
    (hnd1 : (d1.map Prod.fst).Nodup) (hnd2 : (d2.map Prod.fst).Nodup)
    (hg1 : pyDictGet d1 v = some u1) (hg2 : pyDictGet d2 v = some u2) :
    pyDictGet (Road.update_speeds_merge [d1, d2]) v = some (pymin u1 u2) ∧
    pyDictGet (Road.update_speeds_merge [d2, d1]) v = some (pymin u1 u2) ∧
    pyDictGet (Intersection.update_speeds_merge [d1, d2]) v = some u2 ∧
    pyDictGet (Intersection.update_speeds_merge [d2, d1]) v = some u1 := by
  have hv1 := filter_key_eq_of_nodup d1 v u1 hnd1 hg1
  have hv2 := filter_key_eq_of_nodup d2 v u2 hnd2 hg2
  have hmergeR : ∀ da db : List (Vehicle × SpeedUpdate),
      Road.update_speeds_merge [da, db] =
        db.foldl (fun a p => speedDictInsertMin a p.1 p.2)
          (da.foldl (fun a p => speedDictInsertMin a p.1 p.2) []) :=
    fun _ _ => rfl
  have hmergeI : ∀ da db : List (Vehicle × SpeedUpdate),
      Intersection.update_speeds_merge [da, db] =
        db.foldl (fun a p => pyDictSet a p.1 p.2)
          (da.foldl (fun a p => pyDictSet a p.1 p.2) []) :=
    fun _ _ => rfl
  refine ⟨?_, ?_, ?_, ?_⟩
  · rw [hmergeR, pyDictGet_foldInsertMin, pyDictGet_foldInsertMin, hv1, hv2]
    rfl
  · rw [hmergeR, pyDictGet_foldInsertMin, pyDictGet_foldInsertMin, hv2, hv1]
    show some (pymin u2 u1) = some (pymin u1 u2)
    rw [pymin_comm]
  · rw [hmergeI, pyDictGet_foldSet, pyDictGet_foldSet, hv1, hv2]
    rfl
  · rw [hmergeI, pyDictGet_foldSet, pyDictGet_foldSet, hv2, hv1]
    rfl

/-- Witness for the amended C3 at two concrete one-entry lane dicts. -/
theorem road_update_speeds_merge_takes_min_witness :
    ([(vLaneChangeW, uSlowW)].map Prod.fst).Nodup ∧
    ([(vLaneChangeW, uFastW)].map Prod.fst).Nodup ∧
    pyDictGet [(vLaneChangeW, uSlowW)] vLaneChangeW = some uSlowW ∧
    pyDictGet [(vLaneChangeW, uFastW)] vLaneChangeW = some uFastW ∧
    pyDictGet (Road.update_speeds_merge
        [[(vLaneChangeW, uSlowW)], [(vLaneChangeW, uFastW)]]) vLaneChangeW
      = some (pymin uSlowW uFastW) ∧
    pyDictGet (Road.update_speeds_merge
        [[(vLaneChangeW, uFastW)], [(vLaneChangeW, uSlowW)]]) vLaneChangeW
      = some (pymin uSlowW uFastW) :=
  ⟨by decide, by decide, by decide, by decide,
    (road_update_speeds_merge_takes_min [(vLaneChangeW, uSlowW)]
      [(vLaneChangeW, uFastW)] vLaneChangeW uSlowW uFastW
      (by decide) (by decide) (by decide) (by decide)).1,
    (road_update_speeds_merge_takes_min [(vLaneChangeW, uSlowW)]
      [(vLaneChangeW, uFastW)] vLaneChangeW uSlowW uFastW
      (by decide) (by decide) (by decide) (by decide)).2.1⟩

/-- C4: for every argument record with positive entrance and approach
region lengths whose sum exceeds the trajectory length, `Road.__init__`
fails with one of its constructor-validation `ValueError`s (the spec's
ConfigurationError kind); no `Road` value is returned. -/
theorem road_init_region_overflow_always_configuration_error
    (a : RoadArgs) (_hent : 0 < a.len_entrance_region)
    (_happ : 0 < a.len_approach_region)
    (hsum : a.trajectory.length <
      a.len_entrance_region + a.len_approach_region) :
    ∃ e : PyError, Road.init a = Except.error e ∧
      e.isConfigurationError = true := by
  unfold Road.init
  split_ifs with h1 h2 h3 h4 h5 _h6 <;>
    first
      | exact absurd (Or.inr hsum) h4
      | exact ⟨_, rfl, rfl⟩

/-- Witness for C4 at `roadArgsOverflow` (60 m + 50 m regions on a 100 m
trajectory). -/
theorem road_init_region_overflow_witness :
    0 < roadArgsOverflow.len_entrance_region ∧
    0 < roadArgsOverflow.len_approach_region ∧
    roadArgsOverflow.trajectory.length <
      roadArgsOverflow.len_entrance_region +
        roadArgsOverflow.len_approach_region ∧
    ∃ e : PyError, Road.init roadArgsOverflow = Except.error e ∧
      e.isConfigurationError = true :=
  ⟨by decide, by decide, roadArgsOverflow_sum,
    road_init_region_overflow_always_configuration_error roadArgsOverflow
      (by decide) (by decide) roadArgsOverflow_sum⟩

/-- C5 (code bug): a validly constructed but never-connected `Road` does
not raise `LinkError` from `update_speeds`.  Reading the missing
`self.upstream` attribute raises `AttributeError`, which the
`except NameError` clause of roads.py lines 228-231 cannot catch, so the
`AttributeError` propagates instead of the intended `LinkError`. -/
theorem road_update_speeds_unconnected_attribute_error :
    Road.init roadArgsOk = Except.ok roadUnconnected ∧
    roadUnconnected.update_speeds_linkcheck =
      Except.error PyError.attributeErrorNoUpstream ∧
    PyError.attributeErrorNoUpstream ≠ PyError.linkErrorNoUpstream := by
  refine ⟨?_, by decide, by decide⟩
  unfold Road.init
  norm_num [roadArgsOk, roadUnconnected, trajW]

/-- C6: `Intersection.step_vehicles` forwards every transfer the lanes
yield to the downstream road indexed by the transfer's position, and
`finish_exiting` receives exactly the vehicles of the REAR-section
transfers, provided every transfer position has a downstream road. -/
theorem step_vehicles_forwards_each_and_finishes_rear
    (downstream_road_by_coord : List (Coord × Nat))
    (lane_transfers : List (List VehicleTransfer))
    (hfound : ∀ t ∈ lane_transfers.flatten,
      (pyDictGet downstream_road_by_coord t.pos).isSome = true) :
    (Intersection.step_vehicles downstream_road_by_coord lane_transfers).err
      = none ∧
    (Intersection.step_vehicles downstream_road_by_coord
        lane_transfers).finishCalls =
      (lane_transfers.flatten.filter fun t =>
        decide (t.vsection = VehicleSection.rear)).map (fun t => t.vehicle) ∧
    (Intersection.step_vehicles downstream_road_by_coord
        lane_transfers).forwards.map Prod.snd = lane_transfers.flatten ∧
    ∀ p ∈ (Intersection.step_vehicles downstream_road_by_coord
        lane_transfers).forwards,
      pyDictGet downstream_road_by_coord p.2.pos = some p.1 :=
  stepVehiclesFrom_spec downstream_road_by_coord lane_transfers.flatten
    hfound

/-- Witness for C6 at one lane yielding a front and a rear transfer. -/
theorem step_vehicles_witness :
    (Intersection.step_vehicles roadsByCoordW [[tFrontResW, tRearResW]]).err
      = none ∧
    (Intersection.step_vehicles roadsByCoordW
        [[tFrontResW, tRearResW]]).finishCalls =
      ([[tFrontResW, tRearResW]].flatten.filter fun t =>
        decide (t.vsection = VehicleSection.rear)).map (fun t => t.vehicle) ∧
    (Intersection.step_vehicles roadsByCoordW
        [[tFrontResW, tRearResW]]).forwards.map Prod.snd =
      [[tFrontResW, tRearResW]].flatten ∧
    ∀ p ∈ (Intersection.step_vehicles roadsByCoordW
        [[tFrontResW, tRearResW]]).forwards,
      pyDictGet roadsByCoordW p.2.pos = some p.1 :=
  step_vehicles_forwards_each_and_finishes_rear roadsByCoordW
    [[tFrontResW, tRearResW]] (by decide)

/-- C7 counterexample: `Intersection.process_transfers` calls
`start_reservation` for a MID-section transfer of a reserved vehicle, and
calls it twice when the vehicle's front and mid sections are both in the
buffer — the caller never checks the transferred section and so does not
prevent double-starting. -/
theorem start_reservation_any_section_counterexample :
    tMidResW.vsection = VehicleSection.mid ∧
    tMidResW.vehicle.has_reservation = true ∧
    (Intersection.process_transfers envW [tMidResW]).startCalls
      = [vReservedW] ∧
    (Intersection.process_transfers envW [tMidResW, tFrontResW]).startCalls
      = [vReservedW, vReservedW] :=
  ⟨rfl, rfl, by decide, by decide⟩

/-- C7 amended: in an error-free `process_transfers` run,
`manager.start_reservation` is invoked once per popped transfer whose
vehicle has `has_reservation` set, in pop (reverse-buffer) order and
regardless of the transferred section; uniqueness per vehicle would have to
come from the manager mutating the flag, not from this caller. -/
theorem start_reservation_called_per_reserved_transfer
    (env : IntersectionEnv) (buffer : List VehicleTransfer)
    (herr : (Intersection.process_transfers env buffer).err = none) :
    (Intersection.process_transfers env buffer).startCalls =
      (buffer.reverse.filter fun t => t.vehicle.has_reservation).map
        fun t => t.vehicle :=
  processTransfersFrom_startCalls env buffer.reverse herr

/-- Witness for the amended C7 at a two-transfer buffer. -/
theorem start_reservation_per_transfer_witness :
    (Intersection.process_transfers envW [tMidResW, tFrontResW]).err
      = none ∧
    (Intersection.process_transfers envW [tMidResW, tFrontResW]).startCalls =
      ([tMidResW, tFrontResW].reverse.filter fun t =>
        t.vehicle.has_reservation).map fun t => t.vehicle :=
  ⟨by decide,
    start_reservation_called_per_reserved_transfer envW
      [tMidResW, tFrontResW] (by decide)⟩

/-- C8: evaluating `Reservation.__hash__` on any reservation raises
`NameError`, because the body reads the bare name `vehicle`, which no
enclosing scope binds; in particular it never returns the hash of the
reservation's own vehicle. -/
theorem reservation_hash_raises_name_error :
    ∀ r : Reservation,
      r.pyhash = Except.error PyError.nameErrorUnresolved ∧
      r.pyhash ≠ Except.ok (vehicleHash r.vehicle) := by
  intro r
  refine ⟨rfl, ?_⟩
  intro h
  rw [show r.pyhash = Except.error PyError.nameErrorUnresolved from rfl] at h
  exact Except.noConfusion h

/-- C9: `Intersection.__init__` raises `NotImplementedError` for every
argument tuple, so no `Intersection` is ever constructed, and
`Intersection.from_spec` therefore never returns one. -/
theorem intersection_init_never_constructs :
    (∀ (u d : List Road) (c : List (List ℚ)) (m : List (Nat × ℚ)) (v : Int),
      Intersection.init u d c m v = Except.error PyError.notImplementedTodo) ∧
    (∀ spec : IntersectionSpec,
      Intersection.from_spec spec
        = Except.error PyError.notImplementedTodo) :=
  ⟨fun _ _ _ _ _ => rfl, fun _ => rfl⟩

/-- C10: the final `Sum of regions longer than trajectory` branch of
`Road.__init__` is unreachable: its condition is the second disjunct of the
earlier length check, which already raised. -/
theorem road_init_sum_regions_branch_unreachable :
    ∀ a : RoadArgs,
      Road.init a ≠ Except.error PyError.valueErrorSumOfRegions := by
  intro a h
  unfold Road.init at h
  split_ifs at h with h1 h2 h3 h4 h5 h6 <;>
    first
      | exact h4 (Or.inr h6)
      | simp at h
